import Mathlib

/-!
Shallow embedding of `src/stt/main.py` (itbel/parlance): a FastAPI service
exposing `POST /transcribe` and `GET /health` over a preloaded
faster-whisper model.  Pure pieces of the Python source are translated to
Lean functions; the module-level globals become an `AppState` record that
request handlers receive and return, and the external recognition model is
a parameter (an opaque collaborator returning either segments and info, or
a raised exception).
-/

namespace Stt

/-- The process environment, as read by `os.getenv`: a partial map from
variable names to values (`none` = unset). -/
abbrev Env : Type := String → Option String

/-- Python `os.getenv(name, default)`: the variable's value when set, the default
otherwise.  An environment variable set to the empty string is *set*. -/
def getenv (env : Env) (name default : String) : String :=
  (env name).getD default

/-- Source line 6: `WHISPER_MODEL = os.getenv("WHISPER_MODEL", "base")`. -/
def WHISPER_MODEL (env : Env) : String :=
  getenv env "WHISPER_MODEL" "base"

/-- Source line 7: `COMPUTE = os.getenv("WHISPER_COMPUTE", "auto")`. -/
def COMPUTE (env : Env) : String :=
  getenv env "WHISPER_COMPUTE" "auto"

/-- Source line 8: `device = "cuda" if COMPUTE == "cuda" else "auto"`. -/
def device (env : Env) : String :=
  if COMPUTE env = "cuda" then "cuda" else "auto"

/-- Source line 9: `compute_type = "float16" if device == "cuda" else "int8"`. -/
def compute_type (env : Env) : String :=
  if device env = "cuda" then "float16" else "int8"

/-- A recognized segment as emitted by the model: only its `text` attribute
is read by the service (`seg.text`, main.py line 27). -/
structure Segment where
  text : String
  deriving DecidableEq, Repr

/-- The transcription info object returned by the model: only its
`language` attribute is read (`info.language`, main.py line 28). -/
structure TranscriptionInfo where
  language : String
  deriving DecidableEq, Repr

/-- The keyword arguments the service passes to `model.transcribe`
(main.py lines 22-26): `beam_size`, `vad_filter`, `language`. -/
structure TranscribeArgs where
  beam_size : Nat
  vad_filter : Bool
  language : String
  deriving DecidableEq, Repr

/-- The external recognition model, an opaque collaborator: given the audio
bytes and the call arguments it either returns the (lazily produced)
segments together with the info object, or raises an exception, carried
here as an opaque string.  faster-whisper yields segments lazily, so an
exception raised while iterating them inside the handler's `try` block is
covered by the `Except.error` case as well. -/
abbrev Model : Type :=
  List UInt8 → TranscribeArgs → Except String (List Segment × TranscriptionInfo)

/-- JSON response bodies the service can produce. -/
inductive Body where
  /-- Success body `{"text": ..., "language": ...}` (main.py line 28). -/
  | transcription (text language : String)
  /-- Error body `{"detail": msg}`, produced by `HTTPException(status_code, detail=msg)`. -/
  | detail (msg : String)
  /-- FastAPI's request-validation error body (a list of validation errors
  with a "field required" message), produced by the framework before the
  endpoint body runs. -/
  | validation (msg : String)
  /-- Health body `{"ok": ..., "model": ..., "device": ...}` (main.py line 34). -/
  | health (ok : Bool) (model device : String)
  deriving DecidableEq, Repr

/-- An HTTP response: status code and JSON body. -/
structure Response where
  status : Nat
  body : Body
  deriving DecidableEq, Repr

/-- Whitespace as stripped by Python's `str.strip()` with no argument,
restricted to the ASCII range (Python additionally treats some non-ASCII
code points as whitespace; the service only ever strips model-produced
segment text). -/
def pyIsSpace (c : Char) : Bool :=
  c = ' ' || c = '\t' || c = '\n' || c = '\r' || c = '\x0b' || c = '\x0c'

/-- Strip `pyIsSpace` characters from both ends of a character list. -/
def stripList (l : List Char) : List Char :=
  ((l.dropWhile pyIsSpace).reverse.dropWhile pyIsSpace).reverse

/-- Python's `str.strip()`: remove leading and trailing whitespace. -/
def pyStrip (s : String) : String :=
  ⟨stripList s.data⟩

/-- Handler body of `POST /transcribe` (main.py lines 16-30), after the upload
has been read into `data`.  Returns the HTTP response together with the
list of calls made to `model.transcribe` (each element records the
arguments of one call), so that claims about whether and how the model is
invoked can be stated.  `not data or len(data) < 1500` is
`data.isEmpty = true ∨ data.length < 1500` (`not data` on bytes tests
emptiness); on passing it, `model.transcribe(io.BytesIO(data), beam_size=1,
vad_filter=True, language="en")` runs inside `try`, the segment texts are
joined with `"".join` and stripped, and any exception is mapped to
`HTTPException(422, "transcription failed")`. -/
def transcribe (m : Model) (data : List UInt8) : Response × List TranscribeArgs :=
  if data.isEmpty = true ∨ data.length < 1500 then
    (⟨400, Body.detail "audio too short"⟩, [])
  else
    match m data ⟨1, true, "en"⟩ with
    | Except.ok (segments, info) =>
        (⟨200, Body.transcription (pyStrip (String.join (segments.map Segment.text)))
            info.language⟩,
         [⟨1, true, "en"⟩])
    | Except.error _ =>
        (⟨422, Body.detail "transcription failed"⟩, [⟨1, true, "en"⟩])

/-- The `POST /transcribe` endpoint as routed by FastAPI.  The signature
`audio: UploadFile = File(...)` (main.py line 16) declares `audio` a
*required* form field; per FastAPI's request-validation semantics, a
request that carries no such field is rejected by the framework with an
HTTP 422 validation error ("field required") before the endpoint function
runs, so the model is never consulted.  When the field is present, its
bytes are read and the handler body runs. -/
def transcribe_endpoint (m : Model) (audioField : Option (List UInt8)) :
    Response × List TranscribeArgs :=
  match audioField with
  | none => (⟨422, Body.validation "field required"⟩, [])
  | some data => transcribe m data

/-- The module-level state of the process: the configuration globals
resolved at import time (main.py lines 6-9) and the loaded model instance
(main.py line 11).  No handler assigns to any of these names. -/
structure AppState where
  whisper_model : String
  compute : String
  device : String
  compute_type : String
  model : Model

/-- Process start-up: resolve the configuration from the environment and
load the model (the `WhisperModel(...)` constructor is external; the loaded
instance is a parameter). -/
def AppState.init (env : Env) (m : Model) : AppState :=
  { whisper_model := WHISPER_MODEL env
    compute := COMPUTE env
    device := Stt.device env
    compute_type := Stt.compute_type env
    model := m }

/-- Handler of `GET /health` (main.py lines 32-34): returns the dict
`{"ok": True, "model": WHISPER_MODEL, "device": device}`, which FastAPI
serves with status 200. -/
def health (s : AppState) : Response :=
  ⟨200, Body.health true s.whisper_model s.device⟩

/-- An incoming HTTP request to one of the two routes. -/
inductive Request where
  | post_transcribe (audioField : Option (List UInt8))
  | get_health

/-- Dispatch one request: the response, the (unchanged) module state, and
the list of `model.transcribe` calls made while serving it.  Neither
handler assigns to any module-level name, so the state is passed through
unchanged. -/
def handle (s : AppState) (r : Request) : Response × AppState × List TranscribeArgs :=
  match r with
  | Request.post_transcribe audioField =>
      let res := transcribe_endpoint s.model audioField
      (res.1, s, res.2)
  | Request.get_health => (health s, s, [])

/-- Serve a sequence of requests, threading the module state through. -/
def run (s : AppState) (rs : List Request) : AppState :=
  rs.foldl (fun st r => (handle st r).2.1) s

/- Concrete instances used by witnesses and counterexamples. -/

/-- A model that always succeeds with two segments. -/
def mOk : Model :=
  fun _ _ => Except.ok ([⟨" hello"⟩, ⟨" world "⟩], ⟨"en"⟩)

/-- A model that always raises. -/
def mErr : Model :=
  fun _ _ => Except.error "boom"

/-- A 1500-byte payload. -/
def data1500 : List UInt8 := List.replicate 1500 0

/- Helper lemmas about stripping. -/

/-- The head of `dropWhile p l`, when present, does not satisfy `p`. -/
theorem dropWhile_head_false {α : Type} (p : α → Bool) (l : List α) :
    ∀ a ∈ (l.dropWhile p).head?, p a = false := by
  induction l with
  | nil => intro a ha; cases ha
  | cons x xs ih =>
      intro a ha
      rw [List.dropWhile_cons] at ha
      by_cases hx : p x = true
      · rw [if_pos hx] at ha
        exact ih a ha
      · rw [if_neg hx] at ha
        rw [Option.mem_def, List.head?_cons, Option.some.injEq] at ha
        rw [← ha]
        exact eq_false_of_ne_true hx

/-- Applying `dropWhile` either empties the list or preserves its last element. -/
theorem dropWhile_getLast_eq {α : Type} (p : α → Bool) (l : List α) :
    l.dropWhile p = [] ∨ (l.dropWhile p).getLast? = l.getLast? := by
  induction l with
  | nil => left; rfl
  | cons x xs ih =>
      rw [List.dropWhile_cons]
      by_cases hx : p x = true
      · rw [if_pos hx]
        by_cases hdx : xs.dropWhile p = []
        · left; exact hdx
        · right
          rcases ih with h | h
          · exact absurd h hdx
          · rw [h]
            have hne : xs ≠ [] := by
              intro hnil
              exact hdx (by rw [hnil]; rfl)
            obtain ⟨y, ys, rfl⟩ := List.exists_cons_of_ne_nil hne
            rw [List.getLast?_cons_cons]
      · rw [if_neg hx]; right; rfl

/-- The first character of a stripped list is not whitespace. -/
theorem stripList_head (l : List Char) :
    ∀ c ∈ (stripList l).head?, pyIsSpace c = false := by
  intro c hc
  unfold stripList at hc
  rw [List.head?_reverse] at hc
  rcases dropWhile_getLast_eq pyIsSpace (l.dropWhile pyIsSpace).reverse with h | h
  · rw [h] at hc; cases hc
  · rw [h, List.getLast?_reverse] at hc
    exact dropWhile_head_false pyIsSpace l c hc

/-- The last character of a stripped list is not whitespace. -/
theorem stripList_getLast (l : List Char) :
    ∀ c ∈ (stripList l).getLast?, pyIsSpace c = false := by
  intro c hc
  unfold stripList at hc
  rw [List.getLast?_reverse] at hc
  exact dropWhile_head_false pyIsSpace _ c hc

/-- A payload of at least 1500 bytes fails the rejection condition of the
size precondition check. -/
theorem size_check_passes {data : List UInt8} (h : 1500 ≤ data.length) :
    ¬(data.isEmpty = true ∨ data.length < 1500) := by
  rintro (he | hl)
  · have hd : data = [] := by simpa using he
    rw [hd] at h
    simp at h
  · omega

/-- An environment that sets only `WHISPER_COMPUTE=cuda`. -/
def envCuda : Env :=
  fun n => if n = "WHISPER_COMPUTE" then some "cuda" else none

/-- The empty environment: every variable unset. -/
def envEmpty : Env := fun _ => none

/-- The sample payload has exactly 1500 bytes. -/
theorem data1500_len : 1500 ≤ data1500.length := by
  unfold data1500
  rw [List.length_replicate]

/-- Claim C1: every uploaded payload shorter than 1500 bytes (the empty
payload included) is answered with HTTP 400 and detail "audio too short",
and every payload of 1500 bytes or more passes the size precondition
check: its response is the 200 success or the 422 processing failure,
never the 400 size rejection. -/
theorem transcribe_size_check (m : Model) (data : List UInt8) :
    (data.length < 1500 →
      (transcribe m data).1 = ⟨400, Body.detail "audio too short"⟩) ∧
    (1500 ≤ data.length →
      (transcribe m data).1.status = 200 ∨ (transcribe m data).1.status = 422) := by
  constructor
  · intro h
    unfold transcribe
    rw [if_pos (Or.inr h)]
  · intro h
    unfold transcribe
    rw [if_neg (size_check_passes h)]
    cases hm : m data ⟨1, true, "en"⟩ with
    | ok v =>
        obtain ⟨segs, info⟩ := v
        left; rfl
    | error e => right; rfl

/-- Witness for C1 at the empty payload and at a 1500-byte payload. -/
theorem transcribe_size_check_witness :
    (transcribe mOk []).1 = ⟨400, Body.detail "audio too short"⟩ ∧
    ((transcribe mOk data1500).1.status = 200 ∨
      (transcribe mOk data1500).1.status = 422) :=
  ⟨(transcribe_size_check mOk []).1 (by simp),
   (transcribe_size_check mOk data1500).2 data1500_len⟩

/-- Claim C2: for a payload of at least 1500 bytes on which the model
succeeds, the response is HTTP 200 whose text field is the direct
concatenation of the segment texts in emission order (no added
separators) with leading and trailing whitespace removed, and whose
language field is the model-reported language code. -/
theorem transcribe_success (m : Model) (data : List UInt8)
    (segments : List Segment) (info : TranscriptionInfo)
    (hlen : 1500 ≤ data.length)
    (hm : m data ⟨1, true, "en"⟩ = Except.ok (segments, info)) :
    ∃ t : String,
      (transcribe m data).1 = ⟨200, Body.transcription t info.language⟩ ∧
      t = pyStrip ((segments.map Segment.text).foldl (· ++ ·) "") ∧
      (∀ c ∈ t.data.head?, pyIsSpace c = false) ∧
      (∀ c ∈ t.data.getLast?, pyIsSpace c = false) := by
  refine ⟨pyStrip (String.join (segments.map Segment.text)), ?_, rfl, ?_, ?_⟩
  · unfold transcribe
    rw [if_neg (size_check_passes hlen), hm]
  · exact stripList_head _
  · exact stripList_getLast _

/-- Witness for C2: a concrete model emitting segments " hello" and
" world " on a 1500-byte payload yields text "hello world". -/
theorem transcribe_success_witness :
    (transcribe mOk data1500).1 = ⟨200, Body.transcription "hello world" "en"⟩ := by
  obtain ⟨t, h1, h2, _, _⟩ :=
    transcribe_success mOk data1500 [⟨" hello"⟩, ⟨" world "⟩] ⟨"en"⟩
      data1500_len rfl
  rw [h1, h2]
  decide

/-- Claim C3: for a payload that passes the size check, an exception
raised during the model call (or the lazy iteration of its segments) is
answered with HTTP 422 and the fixed detail "transcription failed"; the
response is the same constant whatever the exception carried, so its
content is not exposed. -/
theorem transcribe_failure (m : Model) (data : List UInt8) (e : String)
    (hlen : 1500 ≤ data.length)
    (hm : m data ⟨1, true, "en"⟩ = Except.error e) :
    (transcribe m data).1 = ⟨422, Body.detail "transcription failed"⟩ := by
  unfold transcribe
  rw [if_neg (size_check_passes hlen), hm]

/-- Witness for C3 at a model that always raises. -/
theorem transcribe_failure_witness :
    (transcribe mErr data1500).1 = ⟨422, Body.detail "transcription failed"⟩ :=
  transcribe_failure mErr data1500 "boom" data1500_len rfl

/-- Claim C4 counterexample: a request with no audio file field at all is
rejected by FastAPI's required-field validation with status 422, not with
the 400 "audio too short" response the claim states. -/
theorem transcribe_endpoint_missing_field_cex :
    (transcribe_endpoint mOk none).1.status = 422 ∧
    (transcribe_endpoint mOk none).1 ≠ ⟨400, Body.detail "audio too short"⟩ := by
  decide

/-- Claim C4 (amended): when the request carries no audio file field at
all, the framework's required-field validation rejects it with HTTP 422
before the handler body runs and without invoking the model; the 400
"audio too short" response arises only for a present but empty or
undersized payload. -/
theorem transcribe_endpoint_missing_field (m : Model) :
    (transcribe_endpoint m none).1.status = 422 ∧
    (transcribe_endpoint m none).2 = [] ∧
    (∀ data : List UInt8, data.length < 1500 →
      (transcribe_endpoint m (some data)).1 = ⟨400, Body.detail "audio too short"⟩) := by
  refine ⟨rfl, rfl, fun data h => ?_⟩
  show (transcribe m data).1 = _
  unfold transcribe
  rw [if_pos (Or.inr h)]

/-- Witness for the amended C4 at a present but empty payload. -/
theorem transcribe_endpoint_missing_field_witness :
    (transcribe_endpoint mOk (some [])).1 = ⟨400, Body.detail "audio too short"⟩ :=
  (transcribe_endpoint_missing_field mOk).2.2 [] (by decide)

/-- Serving one request leaves the module state unchanged. -/
theorem handle_state (s : AppState) (r : Request) : (handle s r).2.1 = s := by
  cases r <;> rfl

/-- Serving any sequence of requests leaves the module state unchanged. -/
theorem run_state (s : AppState) (rs : List Request) : run s rs = s := by
  induction rs with
  | nil => rfl
  | cons r rs ih =>
      show run ((handle s r).2.1) rs = s
      rw [handle_state]
      exact ih

/-- Claim C5: after any history of served requests, `GET /health` returns
HTTP 200 with body `ok = true`, the configured model size and the
resolved device; it takes no input and always succeeds. -/
theorem health_contract (env : Env) (m : Model) (hist : List Request) :
    health (run (AppState.init env m) hist) =
      ⟨200, Body.health true (WHISPER_MODEL env) (device env)⟩ := by
  rw [run_state]
  rfl

/-- Claim C6: the model size is the value of `WHISPER_MODEL` (default
"base" when unset), and the device is "cuda" exactly when
`WHISPER_COMPUTE` is set to "cuda", and "auto" for every other value,
unset included. -/
theorem config_resolution (env : Env) :
    (env "WHISPER_MODEL" = none → WHISPER_MODEL env = "base") ∧
    (∀ v, env "WHISPER_MODEL" = some v → WHISPER_MODEL env = v) ∧
    (env "WHISPER_COMPUTE" = some "cuda" → device env = "cuda") ∧
    (∀ v, env "WHISPER_COMPUTE" = some v → v ≠ "cuda" → device env = "auto") ∧
    (env "WHISPER_COMPUTE" = none → device env = "auto") := by
  refine ⟨?_, ?_, ?_, ?_, ?_⟩
  · intro h
    unfold WHISPER_MODEL getenv
    rw [h]
    rfl
  · intro v h
    unfold WHISPER_MODEL getenv
    rw [h]
    rfl
  · intro h
    unfold device COMPUTE getenv
    rw [h]
    rfl
  · intro v h hv
    unfold device COMPUTE getenv
    rw [h, Option.getD_some, if_neg hv]
  · intro h
    unfold device COMPUTE getenv
    rw [h]
    rfl

/-- Witness for C6 at an environment setting only `WHISPER_COMPUTE=cuda`. -/
theorem config_resolution_witness :
    WHISPER_MODEL envCuda = "base" ∧ device envCuda = "cuda" :=
  ⟨(config_resolution envCuda).1 (by decide),
   (config_resolution envCuda).2.2.1 (by decide)⟩

/-- Claim C7: the arithmetic mode is "float16" exactly when the resolved
device is "cuda", and "int8" in every other case. -/
theorem compute_type_selection (env : Env) :
    (device env = "cuda" → compute_type env = "float16") ∧
    (device env ≠ "cuda" → compute_type env = "int8") := by
  constructor
  · intro h
    unfold compute_type
    rw [if_pos h]
  · intro h
    unfold compute_type
    rw [if_neg h]

/-- Witness for C7 at the cuda environment and the empty environment. -/
theorem compute_type_selection_witness :
    compute_type envCuda = "float16" ∧ compute_type envEmpty = "int8" :=
  ⟨(compute_type_selection envCuda).1 (by decide),
   (compute_type_selection envEmpty).2 (by decide)⟩

/-- Claim C8: for every payload that passes the size check, the handler
invokes the model exactly once, with beam width 1, VAD filtering enabled
and the language forced to English. -/
theorem model_called_once (m : Model) (data : List UInt8)
    (h : 1500 ≤ data.length) :
    (transcribe m data).2 = [⟨1, true, "en"⟩] := by
  unfold transcribe
  rw [if_neg (size_check_passes h)]
  cases hm : m data ⟨1, true, "en"⟩ with
  | ok v =>
      obtain ⟨segs, info⟩ := v
      rfl
  | error e => rfl

/-- Witness for C8 at a 1500-byte payload. -/
theorem model_called_once_witness :
    (transcribe mOk data1500).2 = [⟨1, true, "en"⟩] :=
  model_called_once mOk data1500 data1500_len

/-- Claim C9: neither handler writes to the module-level configuration or
model instance: serving any single request, and hence any sequence of
requests, leaves the state identical. -/
theorem state_never_mutated :
    (∀ (s : AppState) (r : Request), (handle s r).2.1 = s) ∧
    (∀ (s : AppState) (rs : List Request), run s rs = s) :=
  ⟨handle_state, run_state⟩

/-- Claim C10: for every payload shorter than 1500 bytes the size
rejection fires before the model is consulted: the handler makes no call
to the model. -/
theorem model_not_called_when_short (m : Model) (data : List UInt8)
    (h : data.length < 1500) :
    (transcribe m data).2 = [] := by
  unfold transcribe
  rw [if_pos (Or.inr h)]

/-- Witness for C10 at the empty payload. -/
theorem model_not_called_when_short_witness :
    (transcribe mErr []).2 = [] :=
  model_not_called_when_short mErr [] (by decide)

end Stt
